import Mathlib

/-!
Shallow embedding of the DynamicCanvas core:
* `GlobalElementManager` (the element store, from `src/unnamed/part_002`, the
  revision with multi-selection, crop-aware hit testing and the rubber-band
  rectangle query; `src/src/GlobalElementManager.ts` is a subset of it),
* `CanvasGridManager` (grid topology and link relation, `src/unnamed/part_000`),
* the grid-based `recalculateOffsets` of `MultiCanvasManager`
  (`src/unnamed/part_001`).

JavaScript `Map`s are modelled as association lists in insertion order
(`Map.set` replaces the value in place for a present key and appends
otherwise, `Map.delete` removes the entry, iteration follows insertion
order).  JavaScript numbers are modelled as unbounded integers: every
operation the claims touch is an order comparison, an addition or a
multiplication of coordinates, whose structure is the same over any linear
ordered ring, and no claim depends on fractional values or float rounding.  Change
notifications are modelled by a counter `notifyCount` that the embedded
`notifyChange` increments once per call; one call invokes every subscriber
exactly once.
-/

namespace DynamicCanvas

/-! ### Association lists modelling JavaScript `Map` -/

/-- `Map.get`: value of the first entry with key `k`, if any. -/
def alGet {K V : Type} [DecidableEq K] : List (K × V) → K → Option V
  | [], _ => none
  | (k', v) :: rest, k => if k' = k then some v else alGet rest k

/-- `Map.set`: replace in place when the key is present, append otherwise. -/
def alSet {K V : Type} [DecidableEq K] : List (K × V) → K → V → List (K × V)
  | [], k, v => [(k, v)]
  | (k', v') :: rest, k, v =>
      if k' = k then (k, v) :: rest else (k', v') :: alSet rest k v

/-- `Map.delete`: drop the entry with key `k`. -/
def alDelete {K V : Type} [DecidableEq K] (m : List (K × V)) (k : K) :
    List (K × V) :=
  m.filter (fun kv => !(decide (kv.1 = k)))

theorem alGet_alSet_same {K V : Type} [DecidableEq K]
    (m : List (K × V)) (k : K) (v : V) : alGet (alSet m k v) k = some v := by
  induction m with
  | nil => simp [alSet, alGet]
  | cons kv rest ih =>
      by_cases h : kv.1 = k
      · cases kv; simp_all [alSet, alGet]
      · cases kv; simp_all [alSet, alGet]

theorem alDelete_of_not_mem {K V : Type} [DecidableEq K]
    (m : List (K × V)) (k : K) (h : alGet m k = none) : alDelete m k = m := by
  induction m with
  | nil => rfl
  | cons kv rest ih =>
      cases kv with
      | mk k' v =>
        by_cases hk : k' = k
        · simp [alGet, hk] at h
        · simp [alGet, hk] at h
          simpa [alDelete, hk] using ih h

/-! ### Element data model (`src/src/types.ts`, fields the claims touch) -/

inductive ElementType
  | text
  | image
  deriving DecidableEq, Repr

/-- `CanvasElement` of `types.ts`; bitmap handles are modelled by their
source string, the text-style fields by their plain values. -/
structure CanvasElement where
  id : String
  type : ElementType
  x : ℤ
  y : ℤ
  width : ℤ
  height : ℤ
  content : String := ""
  imageSrc : Option String := none
  cropX : Option ℤ := none
  cropY : Option ℤ := none
  cropWidth : Option ℤ := none
  cropHeight : Option ℤ := none
  deriving DecidableEq, Repr

/-! ### GlobalElementManager (`src/unnamed/part_002`) -/

/-- Mutable state of `GlobalElementManager`: the element `Map` (insertion
order), the primary selection, the multi-selection `Set` (insertion order,
no duplicates) and the count of `notifyChange` calls. -/
structure GEMState where
  elements : List (String × CanvasElement)
  selectedElementId : Option String
  selectedElementIds : List String
  notifyCount : Nat
  deriving DecidableEq, Repr

def GEMState.init : GEMState :=
  { elements := [], selectedElementId := none, selectedElementIds := [],
    notifyCount := 0 }

/-- `addElement`: `elements.set(element.id, element)` then `notifyChange()`. -/
def addElement (e : CanvasElement) (s : GEMState) : GEMState :=
  { s with elements := alSet s.elements e.id e,
           notifyCount := s.notifyCount + 1 }

/-- `removeElement`: if `elements.delete(id)` succeeded, clear the primary
selection when it pointed at `id` and notify; otherwise do nothing. -/
def removeElement (elementId : String) (s : GEMState) : GEMState :=
  if (alGet s.elements elementId).isSome then
    { s with elements := alDelete s.elements elementId,
             selectedElementId :=
               if s.selectedElementId = some elementId then none
               else s.selectedElementId,
             notifyCount := s.notifyCount + 1 }
  else s

/-- `getElement`. -/
def getElement (elementId : String) (s : GEMState) : Option CanvasElement :=
  alGet s.elements elementId

/-- `getAllElements`: `Array.from(this.elements.values())`. -/
def getAllElements (s : GEMState) : List CanvasElement :=
  s.elements.map (·.2)

/-- `updateElement`: when the id is present, `Object.assign` the updates
into the stored value (the `Map` key is untouched) and notify.  The shallow
merge is modelled by the update function `u`. -/
def updateElement (elementId : String) (u : CanvasElement → CanvasElement)
    (s : GEMState) : GEMState :=
  match alGet s.elements elementId with
  | some _ =>
      { s with elements :=
                 s.elements.map (fun kv =>
                   if kv.1 = elementId then (kv.1, u kv.2) else kv),
               notifyCount := s.notifyCount + 1 }
  | none => s

/-- The intersection test of `getElementsForCanvas` (strict comparisons). -/
def forCanvasHit (canvasOffsetX canvasOffsetY canvasWidth canvasHeight : ℤ)
    (e : CanvasElement) : Bool :=
  decide (e.x < canvasOffsetX + canvasWidth) &&
  decide (e.x + e.width > canvasOffsetX) &&
  decide (e.y < canvasOffsetY + canvasHeight) &&
  decide (e.y + e.height > canvasOffsetY)

/-- `getElementsForCanvas`: push every intersecting element in iteration
order. -/
def getElementsForCanvas (canvasOffsetX canvasOffsetY canvasWidth
    canvasHeight : ℤ) (s : GEMState) : List CanvasElement :=
  (getAllElements s).filter
    (forCanvasHit canvasOffsetX canvasOffsetY canvasWidth canvasHeight)

/-- `setSelectedElement`: assignment only, no notification. -/
def setSelectedElement (elementId : Option String) (s : GEMState) : GEMState :=
  { s with selectedElementId := elementId }

/-- `getSelectedElement`: `if (this.selectedElementId)` is JavaScript
truthiness, so the empty string short-circuits to `null`; otherwise
`elements.get(id) || null`. -/
def getSelectedElement (s : GEMState) : Option CanvasElement :=
  match s.selectedElementId with
  | none => none
  | some sid => if sid = "" then none else alGet s.elements sid

/-- `addToSelection`: `Set.add` then notify. -/
def addToSelection (elementId : String) (s : GEMState) : GEMState :=
  { s with selectedElementIds :=
             if elementId ∈ s.selectedElementIds then s.selectedElementIds
             else s.selectedElementIds ++ [elementId],
           notifyCount := s.notifyCount + 1 }

/-- `removeFromSelection`: `Set.delete` then notify (unconditionally). -/
def removeFromSelection (elementId : String) (s : GEMState) : GEMState :=
  { s with selectedElementIds :=
             s.selectedElementIds.filter (fun i => !(decide (i = elementId))),
           notifyCount := s.notifyCount + 1 }

/-- `clearSelection`: clears the multi-selection set and the primary
selection, then notifies. -/
def clearSelection (s : GEMState) : GEMState :=
  { s with selectedElementIds := [], selectedElementId := none,
           notifyCount := s.notifyCount + 1 }

/-- `getSelectedElements`: map the selected ids through the store, dropping
missing ones. -/
def getSelectedElements (s : GEMState) : List CanvasElement :=
  s.selectedElementIds.filterMap (alGet s.elements)

/-- `isSelected`. -/
def isSelected (elementId : String) (s : GEMState) : Bool :=
  decide (elementId ∈ s.selectedElementIds) ||
  decide (s.selectedElementId = some elementId)

/-- The intersection test of `getElementsInRectangle`: the negated
disjunction uses non-strict complements. -/
def inRectangleHit (x y width height : ℤ) (e : CanvasElement) : Bool :=
  !(decide (e.x > x + width) || decide (e.x + e.width < x) ||
    decide (e.y > y + height) || decide (e.y + e.height < y))

/-- `getElementsInRectangle`. -/
def getElementsInRectangle (x y width height : ℤ) (s : GEMState) :
    List CanvasElement :=
  (getAllElements s).filter (inRectangleHit x y width height)

/-- `clearAll`: clears the elements and the primary selection only — the
multi-selection set is left alone and no notification fires. -/
def clearAll (s : GEMState) : GEMState :=
  { s with elements := [], selectedElementId := none }

/-- `duplicateElement`: absent id returns `null` without touching the state;
otherwise spread-copy with the fresh id (`element-${Date.now()}`, passed in
as `newId`), shift by the offsets, re-create the image handle from the same
source, and insert via `addElement` (which notifies). -/
def duplicateElement (elementId newId : String) (offsetX offsetY : ℤ)
    (s : GEMState) : Option CanvasElement × GEMState :=
  match alGet s.elements elementId with
  | none => (none, s)
  | some original =>
      let dup := { original with id := newId, x := original.x + offsetX,
                                 y := original.y + offsetY }
      (some dup, addElement dup s)

/-- The containment test of `getElementAtPoint`: when all four crop fields
are set, the crop rectangle translated by the element position (inclusive
bounds); otherwise the full box (inclusive bounds). -/
def atPointHit (globalX globalY : ℤ) (e : CanvasElement) : Bool :=
  match e.cropX, e.cropY, e.cropWidth, e.cropHeight with
  | some cx, some cy, some cw, some ch =>
      decide (e.x + cx ≤ globalX) && decide (globalX ≤ e.x + cx + cw) &&
      decide (e.y + cy ≤ globalY) && decide (globalY ≤ e.y + cy + ch)
  | _, _, _, _ =>
      decide (e.x ≤ globalX) && decide (globalX ≤ e.x + e.width) &&
      decide (e.y ≤ globalY) && decide (globalY ≤ e.y + e.height)

/-- `getElementAtPoint`: walk the values array from the last index down and
return the first hit — i.e. `find?` on the reversed iteration order. -/
def getElementAtPoint (globalX globalY : ℤ) (s : GEMState) :
    Option CanvasElement :=
  (getAllElements s).reverse.find? (atPointHit globalX globalY)

/-- `moveElementToFront`: present id is deleted and re-`set`, which appends
it at the end of the iteration order.  No notification. -/
def moveElementToFront (elementId : String) (s : GEMState) : GEMState :=
  match alGet s.elements elementId with
  | none => s
  | some e =>
      { s with elements := alSet (alDelete s.elements elementId) elementId e }

/-- `moveElementToBack`: rebuild the map with the element first, then every
other entry in its original order.  No notification. -/
def moveElementToBack (elementId : String) (s : GEMState) : GEMState :=
  match alGet s.elements elementId with
  | none => s
  | some e =>
      { s with elements :=
                 (elementId, e) ::
                   s.elements.filter (fun kv => !(decide (kv.1 = elementId))) }

/-! ### CanvasGridManager (`src/unnamed/part_000`) -/

structure GridPosition where
  row : Int
  col : Int
  deriving DecidableEq, Repr

/-- State of `CanvasGridManager`: the cell map (the key `"row,col"` is
injective in `(row, col)`, modelled as the pair), the position map and the
link-state map, whose keys are the strings produced by `getLinkKey`. -/
structure GridState where
  grid : List ((Int × Int) × String)
  canvasPositions : List (String × GridPosition)
  linkStates : List (String × Bool)
  deriving DecidableEq, Repr

def GridState.init : GridState :=
  { grid := [], canvasPositions := [], linkStates := [] }

/-- `getCanvasAt`: `grid.get(key) || null`. -/
def getCanvasAt (row col : Int) (g : GridState) : Option String :=
  alGet g.grid (row, col)

/-- `getCanvasPosition`: `canvasPositions.get(id) || null`. -/
def getCanvasPosition (canvasId : String) (g : GridState) :
    Option GridPosition :=
  alGet g.canvasPositions canvasId

/-- Lexicographic comparison of character lists: JavaScript's default
`Array.sort` string comparison (code-unit order). -/
def charListLt : List Char → List Char → Bool
  | [], [] => false
  | [], _ :: _ => true
  | _ :: _, [] => false
  | a :: as, b :: bs =>
      if a < b then true else if b < a then false else charListLt as bs

/-- `getLinkKey`: `[canvas1, canvas2].sort().join('-')` — the two ids in
ascending lexicographic order, joined by `-`. -/
def getLinkKey (canvas1 canvas2 : String) : String :=
  if charListLt canvas1.data canvas2.data then canvas1 ++ "-" ++ canvas2
  else canvas2 ++ "-" ++ canvas1

/-- The eight compass directions of `getAdjacentCanvases`, in source
order. -/
def adjacentDirs : List (String × Int × Int) :=
  [("top", -1, 0), ("top-right", -1, 1), ("right", 0, 1),
   ("bottom-right", 1, 1), ("bottom", 1, 0), ("bottom-left", 1, -1),
   ("left", 0, -1), ("top-left", -1, -1)]

/-- `getAdjacentCanvases`: direction ↦ occupant of the neighbouring cell,
omitting empty cells. -/
def getAdjacentCanvases (canvasId : String) (g : GridState) :
    List (String × String) :=
  match getCanvasPosition canvasId g with
  | none => []
  | some position =>
      adjacentDirs.filterMap (fun d =>
        (getCanvasAt (position.row + d.2.1) (position.col + d.2.2) g).map
          (fun adjacentCanvas => (d.1, adjacentCanvas)))

/-- `createAdjacentLinks`: for each adjacent canvas, record an
enabled-by-default link entry unless one already exists. -/
def createAdjacentLinks (canvasId : String) (g : GridState) : GridState :=
  (getAdjacentCanvases canvasId g).foldl
    (fun acc d =>
      let linkKey := getLinkKey canvasId d.2
      if (alGet acc.linkStates linkKey).isSome then acc
      else { acc with linkStates := alSet acc.linkStates linkKey true })
    g

/-- `addCanvas`: record the cell and the position, then auto-create links
with the already-present adjacent canvases. -/
def addCanvas (canvasId : String) (row col : Int) (g : GridState) :
    GridState :=
  createAdjacentLinks canvasId
    { g with grid := alSet g.grid (row, col) canvasId,
             canvasPositions :=
               alSet g.canvasPositions canvasId ⟨row, col⟩ }

/-- Character-list prefix test (for `String.includes`). -/
def charIsPrefix : List Char → List Char → Bool
  | [], _ => true
  | _ :: _, [] => false
  | a :: as, b :: bs => a = b && charIsPrefix as bs

/-- Character-list infix test (for `String.includes`). -/
def charIsInfix (sub : List Char) : List Char → Bool
  | [] => charIsPrefix sub []
  | c :: t => charIsPrefix sub (c :: t) || charIsInfix sub t

/-- JavaScript `String.prototype.includes`: substring containment. -/
def jsIncludes (s sub : String) : Bool :=
  charIsInfix sub.data s.data

/-- `removeCanvasLinks`: delete every link entry whose KEY CONTAINS the
canvas id as a substring (`key.includes(canvasId)`). -/
def removeCanvasLinks (canvasId : String) (g : GridState) : GridState :=
  { g with linkStates :=
             g.linkStates.filter (fun kv => !(jsIncludes kv.1 canvasId)) }

/-- `removeCanvas`: when positioned, delete the cell, the position and the
links via `removeCanvasLinks`. -/
def removeCanvas (canvasId : String) (g : GridState) : GridState :=
  match alGet g.canvasPositions canvasId with
  | none => g
  | some position =>
      removeCanvasLinks canvasId
        { g with grid := alDelete g.grid (position.row, position.col),
                 canvasPositions := alDelete g.canvasPositions canvasId }

/-- `toggleLink`: read the current state (`get(key) || false`), store and
return its negation. -/
def toggleLink (canvas1 canvas2 : String) (g : GridState) :
    Bool × GridState :=
  let key := getLinkKey canvas1 canvas2
  let currentState := (alGet g.linkStates key).getD false
  let newState := !currentState
  (newState, { g with linkStates := alSet g.linkStates key newState })

/-- `setLinkState`. -/
def setLinkState (canvas1 canvas2 : String) (enabled : Bool)
    (g : GridState) : GridState :=
  { g with linkStates := alSet g.linkStates (getLinkKey canvas1 canvas2)
                            enabled }

/-- `areCanvasesLinked`: `linkStates.get(key) || false` — an unrecorded
pair reads as `false`. -/
def areCanvasesLinked (canvas1 canvas2 : String) (g : GridState) : Bool :=
  (alGet g.linkStates (getLinkKey canvas1 canvas2)).getD false

/-! ### MultiCanvasManager.recalculateOffsets (`src/unnamed/part_001`) -/

/-- `CanvasData` of `types.ts` (the optional thumbnail string included). -/
structure CanvasData where
  id : String
  name : String
  width : ℤ
  height : ℤ
  offsetX : ℤ
  offsetY : ℤ
  thumbnail : Option String := none
  deriving DecidableEq, Repr

/-- The state of `MultiCanvasManager` that `recalculateOffsets` touches:
each `CanvasManager` is represented by the offset its `setOffset` stores,
alongside the data map, the grid manager and the shared resolution.
DOM-only fields (containers, buttons, thumbnails) are outside the model. -/
structure MCState where
  canvases : List (String × (ℤ × ℤ))
  canvasDataMap : List (String × CanvasData)
  gridManager : GridState
  currentResolution : ℤ × ℤ
  deriving DecidableEq

/-- Per-canvas offset assignment of `recalculateOffsets`: with a grid
position, `(col*width, row*height)`; without one the offset is untouched. -/
def recalcOffsetFor (res : ℤ × ℤ) (g : GridState) (canvasId : String)
    (off : ℤ × ℤ) : ℤ × ℤ :=
  match getCanvasPosition canvasId g with
  | none => off
  | some p => (p.col * res.1, p.row * res.2)

/-- The `canvasData` update of one loop iteration of `recalculateOffsets`:
when the canvas has a grid position, write the recomputed offsets into its
data entry (if present). -/
def recalcDataStep (res : ℤ × ℤ) (g : GridState)
    (acc : List (String × CanvasData)) (canvasId : String) :
    List (String × CanvasData) :=
  match getCanvasPosition canvasId g with
  | none => acc
  | some p =>
      acc.map (fun kv =>
        if kv.1 = canvasId then
          (kv.1, { kv.2 with offsetX := p.col * res.1,
                             offsetY := p.row * res.2 })
        else kv)

/-- `recalculateOffsets`: for every canvas, re-derive the offset from its
grid position and the shared resolution (`setOffset` on the manager plus
the data-map update); canvases without a grid position are skipped. -/
def recalculateOffsets (st : MCState) : MCState :=
  { st with
    canvases := st.canvases.map (fun kv =>
      (kv.1, recalcOffsetFor st.currentResolution st.gridManager kv.1 kv.2)),
    canvasDataMap :=
      (st.canvases.map Prod.fst).foldl
        (recalcDataStep st.currentResolution st.gridManager)
        st.canvasDataMap }

/-! ### General lemmas -/

theorem alGet_mem_values {K V : Type} [DecidableEq K]
    (m : List (K × V)) (k : K) (v : V) (h : alGet m k = some v) :
    v ∈ m.map (·.2) := by
  induction m with
  | nil => simp [alGet] at h
  | cons kv rest ih =>
      by_cases hk : kv.1 = k
      · simp [alGet, hk] at h
        simp [h]
      · simp [alGet, hk] at h
        simp [ih h]

theorem find?_append_eq {α : Type} (p : α → Bool) (u v : List α) :
    (u ++ v).find? p = ((u.find? p).orElse fun _ => v.find? p) := by
  induction u with
  | nil => simp [Option.orElse]
  | cons a t ih =>
      by_cases h : p a
      · simp [List.find?, h, Option.orElse]
      · simp only [List.cons_append, List.find?]
        simp [h, ih]

theorem reverse_find?_some {α : Type} (p : α → Bool) (l : List α) (a : α)
    (h : l.reverse.find? p = some a) :
    p a = true ∧ ∃ l1 l2, l = l1 ++ a :: l2 ∧ ∀ b ∈ l2, p b = false := by
  induction l generalizing a with
  | nil => simp [List.find?] at h
  | cons x t ih =>
      rw [List.reverse_cons, find?_append_eq] at h
      cases hrev : t.reverse.find? p with
      | some a' =>
          rw [hrev] at h
          have ha : a' = a := by simpa [Option.orElse] using h
          obtain ⟨hp, l1, l2, hdec, hrest⟩ := ih a (ha ▸ hrev)
          exact ⟨hp, x :: l1, l2, by simp [hdec], hrest⟩
      | none =>
          rw [hrev] at h
          simp [Option.orElse, List.find?] at h
          by_cases hx : p x
          · simp [hx] at h
            subst h
            refine ⟨hx, [], t, by simp, ?_⟩
            intro b hb
            have := List.find?_eq_none.mp hrev b (by simpa using hb)
            simpa using this
          · simp [hx] at h

theorem reverse_find?_none {α : Type} (p : α → Bool) (l : List α)
    (h : l.reverse.find? p = none) : ∀ a ∈ l, p a = false := by
  intro a ha
  have := List.find?_eq_none.mp h a (by simpa using ha)
  simpa using this

/-! ### C3 — `elementsOverlapping` -/

def c3elem : CanvasElement :=
  { id := "t", type := ElementType.text, x := 10, y := 0, width := 5,
    height := 5 }

def c3state : GEMState := addElement c3elem GEMState.init

/-- C3 counterexample: the rubber-band overlap query
`getElementsInRectangle` includes an element whose left edge merely touches
the rectangle's right edge (`element.x = rect.right`), which the claim's
strict test `element.x < rect.right` excludes.  So, read over both overlap
queries the claim cites, the claim as stated is false. -/
theorem c3_counterexample :
    c3elem ∈ getElementsInRectangle 0 0 10 10 c3state ∧
      ¬(c3elem.x < 0 + 10 ∧ c3elem.x + c3elem.width > 0 ∧
        c3elem.y < 0 + 10 ∧ c3elem.y + c3elem.height > 0) := by
  constructor
  · show c3elem ∈ getElementsInRectangle 0 0 10 10 c3state
    decide
  · decide

/-- C3 amended: `getElementsForCanvas` returns exactly the elements
satisfying the strict AABB test `element.x < rect.right ∧
element.x+element.width > rect.left ∧ element.y < rect.bottom ∧
element.y+element.height > rect.top`, while the rubber-band variant
`getElementsInRectangle` uses the non-strict test (`≤`/`≥`), additionally
including elements that merely touch the rectangle's boundary. -/
theorem c3_overlap_characterization (s : GEMState) (x y w h : ℤ)
    (e : CanvasElement) :
    (e ∈ getElementsForCanvas x y w h s ↔
      e ∈ getAllElements s ∧
        (e.x < x + w ∧ e.x + e.width > x ∧ e.y < y + h ∧
          e.y + e.height > y)) ∧
    (e ∈ getElementsInRectangle x y w h s ↔
      e ∈ getAllElements s ∧
        (e.x ≤ x + w ∧ e.x + e.width ≥ x ∧ e.y ≤ y + h ∧
          e.y + e.height ≥ y)) := by
  constructor
  · simp [getElementsForCanvas, List.mem_filter, forCanvasHit, and_assoc]
  · simp only [getElementsInRectangle, List.mem_filter, inRectangleHit,
      Bool.or_eq_true, Bool.not_eq_true', Bool.or_eq_false_iff,
      decide_eq_false_iff_not, not_lt, ge_iff_le]
    tauto

/-! ### C4 — default link state for unrecorded pairs -/

/-- C4 counterexample: in the initial grid state no link entry is recorded
for the pair `("a", "b")`, yet `areCanvasesLinked` returns `false`, not
`true` as the claim states: `linkStates.get(key) || false` defaults to
`false`. -/
theorem c4_counterexample :
    alGet (GridState.init).linkStates (getLinkKey "a" "b") = none ∧
      areCanvasesLinked "a" "b" GridState.init ≠ true := by
  exact ⟨rfl, by decide⟩

/-- C4 amended: for every pair of viewport ids with no recorded link entry,
`areCanvasesLinked` returns `false` (entries auto-created when canvases
become adjacent are `true`, but the fallback for an unrecorded pair is
`false`). -/
theorem c4_unrecorded_default (g : GridState) (a b : String)
    (h : alGet g.linkStates (getLinkKey a b) = none) :
    areCanvasesLinked a b g = false := by
  simp [areCanvasesLinked, h]

theorem c4_unrecorded_default_witness :
    areCanvasesLinked "a" "b" GridState.init = false :=
  c4_unrecorded_default GridState.init "a" "b" rfl

/-! ### C5 — operations on an unknown id -/

/-- C5: for an id not present in the store, `removeElement`,
`updateElement`, `moveElementToFront`, `moveElementToBack` leave the whole
state unchanged (in particular no notification fires), `duplicateElement`
returns `null` without mutating, and `getElement` returns the
"not found" value. -/
theorem c5_unknown_id_noop (s : GEMState) (elementId newId : String)
    (u : CanvasElement → CanvasElement) (ox oy : ℤ)
    (h : getElement elementId s = none) :
    removeElement elementId s = s ∧
    updateElement elementId u s = s ∧
    moveElementToFront elementId s = s ∧
    moveElementToBack elementId s = s ∧
    duplicateElement elementId newId ox oy s = (none, s) := by
  have h' : alGet s.elements elementId = none := h
  refine ⟨?_, ?_, ?_, ?_, ?_⟩
  · simp [removeElement, h']
  · simp [updateElement, h']
  · simp [moveElementToFront, h']
  · simp [moveElementToBack, h']
  · simp [duplicateElement, h']

theorem c5_unknown_id_noop_witness :
    removeElement "ghost" GEMState.init = GEMState.init ∧
    updateElement "ghost" (fun e => e) GEMState.init = GEMState.init ∧
    moveElementToFront "ghost" GEMState.init = GEMState.init ∧
    moveElementToBack "ghost" GEMState.init = GEMState.init ∧
    duplicateElement "ghost" "copy" 20 20 GEMState.init =
      (none, GEMState.init) :=
  c5_unknown_id_noop GEMState.init "ghost" "copy" (fun e => e) 20 20 rfl

/-! ### C8 — toggleLink -/

/-- C8: `toggleLink(a, b)` returns the negation of the pair's previous
`areCanvasesLinked` value, afterwards `areCanvasesLinked` equals the
returned value, and two consecutive toggles restore the original observable
link state. -/
theorem c8_toggleLink_involutive (g : GridState) (a b : String) :
    (toggleLink a b g).1 = !(areCanvasesLinked a b g) ∧
    areCanvasesLinked a b (toggleLink a b g).2 = (toggleLink a b g).1 ∧
    areCanvasesLinked a b (toggleLink a b (toggleLink a b g).2).2 =
      areCanvasesLinked a b g := by
  refine ⟨rfl, ?_, ?_⟩
  · simp [toggleLink, areCanvasesLinked, alGet_alSet_same]
  · simp [toggleLink, areCanvasesLinked, alGet_alSet_same]

/-! ### C9 — primary selection vs multi-selection -/

def c9state : GEMState :=
  addToSelection "b" (setSelectedElement (some "a") GEMState.init)

/-- C9 counterexample: the state reached from the initial store by
`setSelectedElement("a")` followed by `addToSelection("b")` has a non-empty
primary selection and a non-empty multi-selection set whose members do not
include the primary id — the claimed invariant does not hold in every
reachable state. -/
theorem c9_counterexample :
    c9state.selectedElementId = some "a" ∧
    c9state.selectedElementIds = ["b"] ∧
    "a" ∉ c9state.selectedElementIds := by
  refine ⟨rfl, rfl, by decide⟩

/-- C9 amended: the store does not couple the primary selection to the
multi-selection set (a reachable state can have both non-empty with the
primary id not a member); what does hold is the second half of the claim:
`clearSelection` empties both the multi-selection set and the primary
selection. -/
theorem c9_clearSelection_clears_both (s : GEMState) :
    (clearSelection s).selectedElementIds = [] ∧
    (clearSelection s).selectedElementId = none :=
  ⟨rfl, rfl⟩

/-! ### C10 — selection never dangles -/

/-- C10: `getSelectedElement` returns either `null` or an element currently
present in the store, and removing the primary-selected element leaves
`getSelectedElement` returning `null`. -/
theorem c10_selection_present (s : GEMState) (e : CanvasElement)
    (elementId : String) :
    (getSelectedElement s = some e → e ∈ getAllElements s) ∧
    (s.selectedElementId = some elementId →
      getSelectedElement (removeElement elementId s) = none) := by
  constructor
  · intro h
    unfold getSelectedElement at h
    cases hsel : s.selectedElementId with
    | none => rw [hsel] at h; simp at h
    | some sid =>
        rw [hsel] at h
        by_cases hempty : sid = ""
        · simp [hempty] at h
        · simp [hempty] at h
          exact alGet_mem_values s.elements sid e h
  · intro hsel
    unfold removeElement
    cases hpresent : (alGet s.elements elementId).isSome with
    | true =>
        simp [hpresent, getSelectedElement, hsel]
    | false =>
        simp only [hpresent, Bool.false_eq_true, if_false]
        have hnone : alGet s.elements elementId = none :=
          Option.not_isSome_iff_eq_none.mp (by simp [hpresent])
        unfold getSelectedElement
        rw [hsel]
        by_cases hempty : elementId = ""
        · simp [hempty]
        · simp [hempty, hnone]

def c10elem : CanvasElement :=
  { id := "a", type := ElementType.image, x := 0, y := 0, width := 100,
    height := 100 }

def c10state : GEMState :=
  setSelectedElement (some "a") (addElement c10elem GEMState.init)

theorem c10_selection_present_witness :
    getSelectedElement (removeElement "a" c10state) = none :=
  (c10_selection_present c10state c10elem "a").2 rfl

/-! ### C1 — change notifications -/

def c1elemA : CanvasElement :=
  { id := "a", type := ElementType.image, x := 0, y := 0, width := 50,
    height := 50 }

def c1elemB : CanvasElement :=
  { id := "b", type := ElementType.image, x := 10, y := 10, width := 50,
    height := 50 }

def c1state : GEMState := addElement c1elemB (addElement c1elemA GEMState.init)

/-- C1 counterexample: `moveElementToFront` on a present element genuinely
mutates the store (the iteration order changes) yet fires no change
notification, so not every mutating operation fires one. -/
theorem c1_counterexample :
    (moveElementToFront "a" c1state).elements ≠ c1state.elements ∧
    (moveElementToFront "a" c1state).notifyCount = c1state.notifyCount := by
  constructor
  · decide
  · rfl

/-- C1 amended: `addElement`, `addToSelection`, `removeFromSelection` and
`clearSelection` always fire exactly one change notification, and
`removeElement`, `updateElement` and `duplicateElement` fire exactly one
when the id is present; but `moveElementToFront`, `moveElementToBack`,
`setSelectedElement` and `clearAll` never fire a notification. -/
theorem c1_notification_discipline (s : GEMState) (e : CanvasElement)
    (elementId newId : String) (oid : Option String)
    (u : CanvasElement → CanvasElement) (ox oy : ℤ) :
    (addElement e s).notifyCount = s.notifyCount + 1 ∧
    ((getElement elementId s).isSome = true →
      (removeElement elementId s).notifyCount = s.notifyCount + 1) ∧
    ((getElement elementId s).isSome = true →
      (updateElement elementId u s).notifyCount = s.notifyCount + 1) ∧
    ((getElement elementId s).isSome = true →
      ((duplicateElement elementId newId ox oy s).2).notifyCount =
        s.notifyCount + 1) ∧
    (addToSelection elementId s).notifyCount = s.notifyCount + 1 ∧
    (removeFromSelection elementId s).notifyCount = s.notifyCount + 1 ∧
    (clearSelection s).notifyCount = s.notifyCount + 1 ∧
    (moveElementToFront elementId s).notifyCount = s.notifyCount ∧
    (moveElementToBack elementId s).notifyCount = s.notifyCount ∧
    (setSelectedElement oid s).notifyCount = s.notifyCount ∧
    (clearAll s).notifyCount = s.notifyCount := by
  refine ⟨rfl, ?_, ?_, ?_, rfl, rfl, rfl, ?_, ?_, rfl, rfl⟩
  · intro h
    have h' : (alGet s.elements elementId).isSome = true := h
    simp [removeElement, h']
  · intro h
    rw [Option.isSome_iff_exists] at h
    obtain ⟨v, hv⟩ := h
    simp [updateElement, getElement] at hv ⊢
    rw [hv]
  · intro h
    rw [Option.isSome_iff_exists] at h
    obtain ⟨v, hv⟩ := h
    simp [duplicateElement, getElement] at hv ⊢
    rw [hv]
    rfl
  · unfold moveElementToFront
    cases alGet s.elements elementId <;> rfl
  · unfold moveElementToBack
    cases alGet s.elements elementId <;> rfl

theorem c1_notification_discipline_witness :
    (removeElement "a" c1state).notifyCount = c1state.notifyCount + 1 ∧
    (updateElement "a" (fun e => e) c1state).notifyCount =
      c1state.notifyCount + 1 ∧
    ((duplicateElement "a" "copy" 20 20 c1state).2).notifyCount =
      c1state.notifyCount + 1 :=
  ⟨(c1_notification_discipline c1state c1elemA "a" "copy" none (fun e => e)
      20 20).2.1 (by decide),
   (c1_notification_discipline c1state c1elemA "a" "copy" none (fun e => e)
      20 20).2.2.1 (by decide),
   (c1_notification_discipline c1state c1elemA "a" "copy" none (fun e => e)
      20 20).2.2.2.1 (by decide)⟩

/-! ### C2 — hitTest -/

/-- Effective-bounds containment, written from the claim's words: the crop
rectangle translated to global coordinates when a crop is set, and the full
box `[x, x+width] × [y, y+height]` otherwise. -/
def specEffectiveBoundsContain (px py : ℤ) (e : CanvasElement) : Prop :=
  match e.cropX, e.cropY, e.cropWidth, e.cropHeight with
  | some cx, some cy, some cw, some ch =>
      e.x + cx ≤ px ∧ px ≤ e.x + cx + cw ∧ e.y + cy ≤ py ∧
        py ≤ e.y + cy + ch
  | _, _, _, _ =>
      e.x ≤ px ∧ px ≤ e.x + e.width ∧ e.y ≤ py ∧ py ≤ e.y + e.height

theorem atPointHit_iff_spec (px py : ℤ) (e : CanvasElement) :
    atPointHit px py e = true ↔ specEffectiveBoundsContain px py e := by
  unfold atPointHit specEffectiveBoundsContain
  cases e.cropX <;> cases e.cropY <;> cases e.cropWidth <;>
    cases e.cropHeight <;> simp [and_assoc]

/-- C2: `getElementAtPoint` returns the last element in iteration order
whose effective bounds contain the point (crop rectangle translated to
global coordinates when the crop fields are set, full box otherwise), and
`null` exactly when no element's effective bounds contain it. -/
theorem c2_hitTest_topmost (s : GEMState) (px py : ℤ) :
    (∀ e, getElementAtPoint px py s = some e →
      specEffectiveBoundsContain px py e ∧
        ∃ l1 l2, getAllElements s = l1 ++ e :: l2 ∧
          ∀ e' ∈ l2, ¬specEffectiveBoundsContain px py e') ∧
    (getElementAtPoint px py s = none →
      ∀ e ∈ getAllElements s, ¬specEffectiveBoundsContain px py e) := by
  constructor
  · intro e h
    obtain ⟨hp, l1, l2, hdec, hrest⟩ :=
      reverse_find?_some (atPointHit px py) (getAllElements s) e h
    refine ⟨(atPointHit_iff_spec px py e).mp hp, l1, l2, hdec, ?_⟩
    intro e' he'
    have := hrest e' he'
    intro hc
    rw [(atPointHit_iff_spec px py e').mpr hc] at this
    exact Bool.true_eq_false.mp this
  · intro h e he
    have := reverse_find?_none (atPointHit px py) (getAllElements s) h e he
    intro hc
    rw [(atPointHit_iff_spec px py e).mpr hc] at this
    exact Bool.true_eq_false.mp this

def c2elemLow : CanvasElement :=
  { id := "low", type := ElementType.image, x := 0, y := 0, width := 100,
    height := 100 }

def c2elemTop : CanvasElement :=
  { id := "top", type := ElementType.image, x := 0, y := 0, width := 40,
    height := 40, cropX := some 2, cropY := some 2, cropWidth := some 30,
    cropHeight := some 30 }

def c2state : GEMState :=
  addElement c2elemTop (addElement c2elemLow GEMState.init)

theorem c2_hitTest_topmost_witness :
    specEffectiveBoundsContain 5 5 c2elemTop :=
  ((c2_hitTest_topmost c2state 5 5).1 c2elemTop (by decide)).1

/-! ### C7 — removeCanvas and link entries -/

def c7gridA : GridState := addCanvas "c1" 0 0 GridState.init

def c7gridB : GridState := addCanvas "c9" 5 5 c7gridA

def c7gridC : GridState := addCanvas "c10" 5 6 c7gridB

def c7gridD : GridState := removeCanvas "c1" c7gridC

/-- C7 failing input: place `c1` at (0,0), `c9` at (5,5) and `c10` at
(5,6); the two adjacent canvases get an auto-created link entry under the
key `"c10-c9"`.  Removing `c1` — a canvas referenced by no link entry —
nevertheless deletes that entry, because `removeCanvasLinks` matches keys
with `key.includes(canvasId)` and `"c10-c9"` contains `"c1"` as a
substring.  The pair `(c9, c10)`, both distinct from `c1`, flips from
linked to unlinked, contradicting the claim (and the code's own stated
intent of removing the links "for a canvas"). -/
theorem c7_substring_deletion :
    areCanvasesLinked "c9" "c10" c7gridC = true ∧
    areCanvasesLinked "c9" "c10" c7gridD = false ∧
    getCanvasPosition "c9" c7gridD = some ⟨5, 5⟩ ∧
    getCanvasPosition "c10" c7gridD = some ⟨5, 6⟩ ∧
    ("c9" : String) ≠ "c1" ∧ ("c10" : String) ≠ "c1" ∧
    jsIncludes "c10-c9" "c1" = true := by
  refine ⟨?_, ?_, ?_, ?_, ?_, ?_, ?_⟩ <;> decide

/-! ### C6 — recalculateOffsets -/

theorem alGet_map_keyed {K V : Type} [DecidableEq K]
    (m : List (K × V)) (t : K → V → V) (k : K) :
    alGet (m.map (fun kv => (kv.1, t kv.1 kv.2))) k =
      (alGet m k).map (t k) := by
  induction m with
  | nil => rfl
  | cons kv rest ih =>
      by_cases h : kv.1 = k
      · subst h; simp [alGet]
      · simp [alGet, h, ih]

/-- The offset written into a `canvasData` entry by `recalculateOffsets`. -/
def setDataOff (cd : CanvasData) (p : GridPosition) (res : ℤ × ℤ) :
    CanvasData :=
  { cd with offsetX := p.col * res.1, offsetY := p.row * res.2 }

/-- Per-entry effect of one `recalculateOffsets` iteration on the data
map. -/
def stepEntry (res : ℤ × ℤ) (g : GridState) (canvasId : String)
    (kv : String × CanvasData) : String × CanvasData :=
  match getCanvasPosition canvasId g with
  | none => kv
  | some p => if kv.1 = canvasId then (kv.1, setDataOff kv.2 p res) else kv

/-- Per-entry effect of the whole `recalculateOffsets` loop. -/
def entryFold (res : ℤ × ℤ) (g : GridState) (ids : List String)
    (kv : String × CanvasData) : String × CanvasData :=
  ids.foldl (fun x canvasId => stepEntry res g canvasId x) kv

theorem recalcDataStep_eq_map (res : ℤ × ℤ) (g : GridState)
    (acc : List (String × CanvasData)) (canvasId : String) :
    recalcDataStep res g acc canvasId = acc.map (stepEntry res g canvasId) := by
  unfold recalcDataStep stepEntry
  cases h : getCanvasPosition canvasId g with
  | none => simp
  | some p => simp [setDataOff]

theorem foldl_recalcDataStep_eq_map (res : ℤ × ℤ) (g : GridState)
    (ids : List String) :
    ∀ m : List (String × CanvasData),
      ids.foldl (recalcDataStep res g) m = m.map (entryFold res g ids) := by
  induction ids with
  | nil =>
      intro m
      have : ∀ kv ∈ m, entryFold res g [] kv = kv := fun kv _ => rfl
      simp [List.map_congr_left this]
  | cons c t ih =>
      intro m
      have hstep : List.foldl (recalcDataStep res g) m (c :: t) =
          List.foldl (recalcDataStep res g) (m.map (stepEntry res g c)) t := by
        simp [List.foldl_cons, recalcDataStep_eq_map]
      rw [hstep, ih, List.map_map]
      exact List.map_congr_left fun kv _ => rfl

theorem setDataOff_idem (cd : CanvasData) (p : GridPosition) (res : ℤ × ℤ) :
    setDataOff (setDataOff cd p res) p res = setDataOff cd p res := rfl

theorem entryFold_char (res : ℤ × ℤ) (g : GridState) (ids : List String) :
    ∀ kv : String × CanvasData,
      entryFold res g ids kv =
        match getCanvasPosition kv.1 g with
        | none => kv
        | some p =>
            if kv.1 ∈ ids then (kv.1, setDataOff kv.2 p res) else kv := by
  induction ids with
  | nil =>
      intro kv
      cases h : getCanvasPosition kv.1 g <;> simp [entryFold, h]
  | cons c t ih =>
      intro kv
      have hunf : entryFold res g (c :: t) kv =
          entryFold res g t (stepEntry res g c kv) := rfl
      cases hpos : getCanvasPosition kv.1 g with
      | none =>
          have hstep : stepEntry res g c kv = kv := by
            unfold stepEntry
            cases hc : getCanvasPosition c g with
            | none => rfl
            | some q =>
                by_cases he : kv.1 = c
                · rw [he, hc] at hpos; cases hpos
                · simp [he]
          rw [hunf, hstep, ih kv, hpos]
      | some p =>
          by_cases he : kv.1 = c
          · have hc : getCanvasPosition c g = some p := he ▸ hpos
            have hstep : stepEntry res g c kv = (kv.1, setDataOff kv.2 p res) := by
              unfold stepEntry
              rw [hc]
              simp [he]
            rw [hunf, hstep, ih _]
            have hfst : (kv.1, setDataOff kv.2 p res).1 = kv.1 := rfl
            rw [hfst, hpos]
            by_cases hm : kv.1 ∈ t <;>
              simp [hm, hpos, he, setDataOff_idem, List.mem_cons]
          · have hstep : stepEntry res g c kv = kv := by
              unfold stepEntry
              cases hc : getCanvasPosition c g with
              | none => rfl
              | some q => simp [he]
            rw [hunf, hstep, ih kv, hpos]
            have hmem : (kv.1 ∈ c :: t) = (kv.1 ∈ t) := by
              simp [List.mem_cons, he]
            by_cases hm : kv.1 ∈ t <;> simp [hm, he]

theorem entryFold_idem (res : ℤ × ℤ) (g : GridState) (ids : List String)
    (kv : String × CanvasData) :
    entryFold res g ids (entryFold res g ids kv) = entryFold res g ids kv := by
  cases hpos : getCanvasPosition kv.1 g with
  | none =>
      have h1 : entryFold res g ids kv = kv := by rw [entryFold_char, hpos]
      rw [h1]
      exact h1
  | some p =>
      by_cases hm : kv.1 ∈ ids
      · have h1 : entryFold res g ids kv = (kv.1, setDataOff kv.2 p res) := by
          rw [entryFold_char, hpos]
          simp [hm]
        have hpos' : getCanvasPosition
            ((kv.1, setDataOff kv.2 p res) : String × CanvasData).1 g =
              some p := hpos
        have h2 : entryFold res g ids (kv.1, setDataOff kv.2 p res) =
            (kv.1, setDataOff kv.2 p res) := by
          rw [entryFold_char, hpos']
          simp [hm, setDataOff_idem]
        rw [h1, h2]
      · have h1 : entryFold res g ids kv = kv := by
          rw [entryFold_char, hpos]
          simp [hm]
        rw [h1]
        exact h1

theorem recalcOffsetFor_idem (res : ℤ × ℤ) (g : GridState)
    (canvasId : String) (off : ℤ × ℤ) :
    recalcOffsetFor res g canvasId (recalcOffsetFor res g canvasId off) =
      recalcOffsetFor res g canvasId off := by
  unfold recalcOffsetFor
  cases h : getCanvasPosition canvasId g <;> simp

/-- C6: after `recalculateOffsets`, every canvas that has a grid position
gets the offset `(col * sharedWidth, row * sharedHeight)` derived from its
cell and the current shared resolution, and running `recalculateOffsets`
again changes nothing. -/
theorem c6_recalculateOffsets (st : MCState) (canvasId : String)
    (p : GridPosition) (off : ℤ × ℤ)
    (hpos : getCanvasPosition canvasId st.gridManager = some p)
    (hc : alGet st.canvases canvasId = some off) :
    alGet (recalculateOffsets st).canvases canvasId =
      some (p.col * st.currentResolution.1,
            p.row * st.currentResolution.2) ∧
    recalculateOffsets (recalculateOffsets st) = recalculateOffsets st := by
  constructor
  · show alGet
        (st.canvases.map (fun kv =>
          (kv.1, recalcOffsetFor st.currentResolution st.gridManager kv.1
            kv.2))) canvasId = _
    rw [alGet_map_keyed, hc]
    simp [recalcOffsetFor, hpos]
  · cases st with
    | mk canvases canvasDataMap gridManager currentResolution =>
        unfold recalculateOffsets
        simp only [MCState.mk.injEq, and_true]
        constructor
        · rw [List.map_map]
          exact List.map_congr_left fun kv _ =>
            congrArg (Prod.mk kv.1)
              (recalcOffsetFor_idem currentResolution gridManager kv.1 kv.2)
        · have hids : (canvases.map (fun kv =>
              (kv.1, recalcOffsetFor currentResolution gridManager kv.1
                kv.2))).map Prod.fst = canvases.map Prod.fst := by
            rw [List.map_map]
            exact List.map_congr_left fun kv _ => rfl
          rw [hids, foldl_recalcDataStep_eq_map, foldl_recalcDataStep_eq_map,
            List.map_map]
          exact List.map_congr_left fun kv _ => entryFold_idem _ _ _ kv

def c6data : CanvasData :=
  { id := "c1", name := "canvas 1", width := 800, height := 600,
    offsetX := 0, offsetY := 0 }

def c6st : MCState :=
  { canvases := [("c1", (0, 0))],
    canvasDataMap := [("c1", c6data)],
    gridManager := addCanvas "c1" 1 2 GridState.init,
    currentResolution := (800, 600) }

theorem c6_recalculateOffsets_witness :
    alGet (recalculateOffsets c6st).canvases "c1" = some (1600, 600) ∧
    recalculateOffsets (recalculateOffsets c6st) = recalculateOffsets c6st :=
  c6_recalculateOffsets c6st "c1" ⟨1, 2⟩ (0, 0) rfl rfl

end DynamicCanvas
